import Mathlib

/-
Verification of the orchestration and caching layer of the LEGO mosaic API
service (api_server.py): the preset loader, the tile-asset resolver/cache,
and the POST /mosaic3d request pipeline. The external image-processing
stages (decode, adjust/quantize, index extraction, 3-D render) are opaque
collaborators and are modelled as function-valued parameters; the
filesystem is modelled as an abstract record of existence checks and image
loads, and every disk touch is recorded so that caching claims can speak
about disk access.
-/

namespace LegoMosaicAPI

/-- A decoded bitmap. The orchestration layer never inspects pixels, so a
bitmap is modelled as a tagged opaque value with decidable equality. -/
structure Image where
  data : String
deriving DecidableEq, Repr

/-- Abstract filesystem. A path is a directory string plus a filename;
dirExists models Path.exists on a directory, fileExists models
Path.exists on dir/filename, and loadImage models
Image.open(dir/filename).convert(RGB), which may fail. -/
structure FS where
  dirExists : String → Bool
  fileExists : String → String → Bool
  loadImage : String → String → Except String Image

/-- One disk touch performed by the tile resolver: a directory existence
check, a file existence check, or an image load. -/
inductive DiskOp
  | checkDir (d : String)
  | checkFile (d f : String)
  | load (d f : String)
deriving DecidableEq, Repr

/-- The preset record (mosaic_core.Preset as constructed by
load_preset_from_json). Python floats are modelled as exact rationals and
Python ints as integers; no arithmetic is ever performed on them here. -/
structure Preset where
  blur : Rat
  unsharp_radius : Rat
  unsharp_percent : Int
  contrast : Rat
  brightness : Rat
  gamma : Rat
deriving DecidableEq, Repr

/-- Python float(x) applied to a JSON number: numerically the identity in
the exact-rational model. -/
def pyFloat (q : Rat) : Rat := q

/-- Python int(x) applied to a JSON number: truncation toward zero. -/
def pyInt (q : Rat) : Int := if q < 0 then q.ceil else q.floor

/-- Parsed content of the preset JSON file: a mapping from field name to
numeric value, in file order. json.load produces a dict; lookup is by
key. -/
abbrev PresetDict := List (String × Rat)

/-- PRESET_PATH from api_server.py. -/
def PRESET_PATH : String := "lego_mosaic_best_preset (4).json"

/-- State of the preset file on disk: absent, present but not valid JSON,
or parsed into a mapping. -/
inductive PresetFile
  | missing
  | malformed (err : String)
  | parsed (d : PresetDict)

/-- Construction of the Preset from the parsed dict, exactly the
Preset(...) call in load_preset_from_json: each field is read with
dict.get(name, default) and coerced with float() or int(). -/
def presetFromDict (d : PresetDict) : Preset :=
  ⟨pyFloat ((List.lookup "blur" d).getD 0),
   pyFloat ((List.lookup "unsharp_radius" d).getD 0),
   pyInt ((List.lookup "unsharp_percent" d).getD 0),
   pyFloat ((List.lookup "contrast" d).getD 1),
   pyFloat ((List.lookup "brightness" d).getD 1),
   pyFloat ((List.lookup "gamma" d).getD 1)⟩

/-- load_preset_from_json: fail if the file does not exist, propagate a
parse failure, otherwise build the Preset from the parsed mapping. -/
def load_preset_from_json : PresetFile → Except String Preset
  | .missing => .error ("Preset JSON not found at: " ++ PRESET_PATH)
  | .malformed err => .error err
  | .parsed d => .ok (presetFromDict d)

/-- TILE_MAP from api_server.py: palette index to tile PNG filename, in
insertion order. -/
def TILE_MAP : List (Nat × String) :=
  [(0, "RGB (220, 224, 225).png"),
   (1, "RGB (150, 160, 171).png"),
   (2, "RGB (88, 99, 110).png"),
   (3, "RGB (35, 46, 59).png"),
   (4, "RGB (20, 25, 30).png")]

/-- TILE_MAP[0], the probe filename used during directory resolution. -/
def probeFile : String := "RGB (220, 224, 225).png"

theorem probeFile_eq_tile_map_zero : List.lookup 0 TILE_MAP = some probeFile := rfl

/-- TILE_MAP.values(), in insertion order. -/
def tileFilenames : List String := TILE_MAP.map Prod.snd

/-- Errors raised by load_tile_images, structured so that theorems can
speak about which filenames an error carries. -/
inductive TileError
  | missingAssets (files : List String)
  | tileNotFound (filename dir : String)
  | loadFailed (filename msg : String)
deriving DecidableEq, Repr

/-- Rendering of a TileError to the message text raised in
api_server.py. -/
def TileError.message : TileError → String
  | .missingAssets files =>
      "Tile images not found. Please put the following PNG files in tiles/ or project root:\n"
        ++ String.intercalate "\n" (files.map (fun f => "  - " ++ f))
  | .tileNotFound filename dir =>
      "Tile image not found: " ++ filename ++ " in " ++ dir
        ++ ". Please ensure all tile images are present."
  | .loadFailed filename msg =>
      "Failed to load tile image " ++ filename ++ ": " ++ msg

/-- The single filename an error attributes the failure to, when it names
one. -/
def TileError.file? : TileError → Option String
  | .missingAssets _ => none
  | .tileNotFound filename _ => some filename
  | .loadFailed filename _ => some filename

/-- Whether a resolver result is the enumerating missing-assets error. -/
def isMissingAssetsError : Except TileError (List (Nat × Image)) → Bool
  | .error (.missingAssets _) => true
  | _ => false

/-- The search_paths list built in load_tile_images, in source order:
caller-supplied directory, the default tiles directory, /mnt/data, the
current working directory, and the tiles directory adjacent to the
service file (Path of the file, .parent / tiles). -/
def search_paths (tilesDir selfDir : String) : List String :=
  [tilesDir, "tiles", "/mnt/data", ".", selfDir ++ "/tiles"]

/-- The first resolution loop of load_tile_images: walk the candidate
directories in order; a candidate is selected when the directory exists
and the probe file TILE_MAP[0] exists in it. Every existence check is
recorded. -/
def findFirstDirT (fs : FS) : List String → Option String × List DiskOp
  | [] => (none, [])
  | d :: rest =>
    if fs.dirExists d then
      if fs.fileExists d probeFile then
        (some d, [.checkDir d, .checkFile d probeFile])
      else
        ((findFirstDirT fs rest).1,
         .checkDir d :: .checkFile d probeFile :: (findFirstDirT fs rest).2)
    else
      ((findFirstDirT fs rest).1, .checkDir d :: (findFirstDirT fs rest).2)

/-- The fallback loop of load_tile_images: check each catalog filename
against the current working directory; the current directory is selected
as soon as one is found. -/
def fallbackT (fs : FS) : List String → Option String × List DiskOp
  | [] => (none, [])
  | f :: rest =>
    if fs.fileExists "." f then
      (some ".", [.checkFile "." f])
    else
      ((fallbackT fs rest).1, .checkFile "." f :: (fallbackT fs rest).2)

/-- Directory resolution of load_tile_images with its disk-op trace: the
ordered candidate walk, then the current-directory fallback. -/
def resolveT (fs : FS) (selfDir tilesDir : String) : Option String × List DiskOp :=
  match (findFirstDirT fs (search_paths tilesDir selfDir)).1 with
  | some d => (some d, (findFirstDirT fs (search_paths tilesDir selfDir)).2)
  | none =>
    ((fallbackT fs tileFilenames).1,
     (findFirstDirT fs (search_paths tilesDir selfDir)).2 ++ (fallbackT fs tileFilenames).2)

/-- The directory load_tile_images resolves on a first (uncached) call. -/
def resolve_tiles_path (fs : FS) (selfDir tilesDir : String) : Option String :=
  (resolveT fs selfDir tilesDir).1

/-- The loading loop of load_tile_images over a selected directory: for
each catalog entry in order, fail if the file does not exist there, fail
if the image load fails, otherwise collect the loaded bitmap. -/
def loadAllT (fs : FS) (dir : String) :
    List (Nat × String) → Except TileError (List (Nat × Image)) × List DiskOp
  | [] => (.ok [], [])
  | (idx, f) :: rest =>
    if fs.fileExists dir f then
      match fs.loadImage dir f with
      | .error e => (.error (.loadFailed f e), [.checkFile dir f, .load dir f])
      | .ok img =>
        ((loadAllT fs dir rest).1.map (fun l => (idx, img) :: l),
         .checkFile dir f :: .load dir f :: (loadAllT fs dir rest).2)
    else
      (.error (.tileNotFound f dir), [.checkFile dir f])

/-- The process-wide tile cache value: palette index to loaded bitmap, in
catalog order. -/
abbrev TileMap := List (Nat × Image)

/-- load_tile_images as a state transformer over the _tile_cache global:
given the cache before the call, return the result, the cache after the
call, and the disk operations performed. A populated cache is returned
immediately with no disk access; otherwise the directory is resolved, all
five catalog entries are loaded from it, and the cache is published only
after every load succeeded. -/
def load_tile_images (fs : FS) (selfDir : String) (cache : Option TileMap)
    (tilesDir : String) : Except TileError TileMap × Option TileMap × List DiskOp :=
  match cache with
  | some m => (.ok m, some m, [])
  | none =>
    match (resolveT fs selfDir tilesDir).1 with
    | none => (.error (.missingAssets tileFilenames), none, (resolveT fs selfDir tilesDir).2)
    | some d =>
      match (loadAllT fs d TILE_MAP).1 with
      | .error e =>
          (.error e, none, (resolveT fs selfDir tilesDir).2 ++ (loadAllT fs d TILE_MAP).2)
      | .ok imgs =>
          (.ok imgs, some imgs, (resolveT fs selfDir tilesDir).2 ++ (loadAllT fs d TILE_MAP).2)

/-- Grid of palette indices produced by idx_image; opaque to the
orchestration layer. -/
abbrev IdxGrid := List (List Nat)

/-- The opaque external collaborators imported from mosaic_core, plus the
image decoder (Image.open over the uploaded bytes followed by convert
RGB), and the MAX_PER_COLOR constant. Each stage may fail. -/
structure Core where
  MAX_PER_COLOR : Nat
  decodeImage : List Nat → Except String Image
  applyPresetOnce : Image → Preset → Int → Nat → Except String Image
  idxImage : Image → Except String IdxGrid
  renderMosaic3d : IdxGrid → TileMap → Except String Image

/-- Observable events of one request, in the order the handler performs
them: reading the upload, decoding it, the adjust/quantize stage (with
the size and per-color budget passed to it), the index stage, the call
into the tile resolver, and the render stage. -/
inductive Ev
  | readFile
  | decode
  | stageAdjust (size : Int) (maxPerColor : Nat)
  | stageIdx
  | tileResolve
  | stageRender
deriving DecidableEq, Repr

/-- Outcome of one request: a streamed PNG of the rendered image, or an
HTTPException with a status code and a detail message. -/
inductive HRes
  | ok (img : Image)
  | err (status : Nat) (detail : String)
deriving DecidableEq, Repr

/-- The two process-wide globals of api_server.py: _tile_cache and
_global_preset. -/
structure ServerState where
  tileCache : Option TileMap
  globalPreset : Option Preset
deriving DecidableEq

/-- The per-color budget selection of the handler: size 96 takes the
fixed 2900 cap, otherwise the MAX_PER_COLOR constant. -/
def selectBudget (core : Core) (size : Int) : Nat :=
  if size = 96 then 2900 else core.MAX_PER_COLOR

/-- The POST /mosaic3d handler generate_lego_mosaic_3d as a state
transformer: given the collaborators, the filesystem, the globals before
the request, the uploaded bytes and the size form field, produce the
response, the globals after the request, and the event trace. Mirrors the
source order: preset check, size check, read and decode, budget
selection, adjust/quantize, index extraction, tile resolution plus
render, encode. -/
def generate_lego_mosaic_3d (core : Core) (fs : FS) (selfDir : String)
    (st : ServerState) (fileBytes : List Nat) (size : Int) :
    HRes × ServerState × List Ev :=
  match st.globalPreset with
  | none => (.err 500 "Preset not loaded", st, [])
  | some preset =>
    if size = 64 ∨ size = 96 then
      match core.decodeImage fileBytes with
      | .error e =>
          (.err 400 ("Failed to read image: " ++ e), st, [.readFile, .decode])
      | .ok img =>
        match core.applyPresetOnce img preset size (selectBudget core size) with
        | .error e =>
            (.err 500 ("Error generating 2D mosaic: " ++ e), st,
             [.readFile, .decode, .stageAdjust size (selectBudget core size)])
        | .ok mosaic2d =>
          match core.idxImage mosaic2d with
          | .error e =>
              (.err 500 ("Error computing palette indices: " ++ e), st,
               [.readFile, .decode, .stageAdjust size (selectBudget core size), .stageIdx])
          | .ok indices =>
            match load_tile_images fs selfDir st.tileCache "tiles" with
            | (.error te, cache2, _ops) =>
                (.err 500 ("Error generating 3D mosaic: " ++ te.message),
                 ⟨cache2, st.globalPreset⟩,
                 [.readFile, .decode, .stageAdjust size (selectBudget core size), .stageIdx,
                  .tileResolve])
            | (.ok tiles, cache2, _ops) =>
              match core.renderMosaic3d indices tiles with
              | .error e =>
                  (.err 500 ("Error generating 3D mosaic: " ++ e),
                   ⟨cache2, st.globalPreset⟩,
                   [.readFile, .decode, .stageAdjust size (selectBudget core size), .stageIdx,
                    .tileResolve, .stageRender])
              | .ok mosaic3d =>
                  (.ok mosaic3d,
                   ⟨cache2, st.globalPreset⟩,
                   [.readFile, .decode, .stageAdjust size (selectBudget core size), .stageIdx,
                    .tileResolve, .stageRender])
    else
      (.err 400 "size must be 64 or 96", st, [])

/-- The startup hook: load the preset from its fixed path, then eagerly
populate the tile cache; any failure aborts startup and the service does
not come up. A successful startup yields globals with both caches
populated. -/
def startup_event (fs : FS) (selfDir : String) (presetFile : PresetFile) :
    Except String ServerState :=
  match load_preset_from_json presetFile with
  | .error e => .error e
  | .ok p =>
    match load_tile_images fs selfDir none "tiles" with
    | (.error te, _, _) => .error te.message
    | (.ok _, cache2, _) => .ok ⟨cache2, some p⟩

/-- A filesystem is wellformed when a file existing inside a directory
implies the directory itself exists. Real filesystems satisfy this; the
abstract record does not enforce it. -/
def FS.Wellformed (fs : FS) : Prop :=
  ∀ d f, fs.fileExists d f = true → fs.dirExists d = true

/-- Candidate list written from the specification text for the claim-side
resolution: caller-supplied directory, the tiles subdirectory, the
shared-data mount, the current working directory, then the tiles
directory adjacent to the service file. -/
def specCandidates (tilesDir selfDir : String) : List String :=
  [tilesDir, "tiles", "/mnt/data", ".", selfDir ++ "/tiles"]

/-- Resolution as the specification describes it: the first candidate
directory containing the index-0 probe file is selected for all entries;
if none contains the probe, each catalog filename is checked against the
current directory, which is selected if any is found. -/
def claimResolve (fs : FS) (selfDir tilesDir : String) : Option String :=
  match (specCandidates tilesDir selfDir).find? (fun d => fs.fileExists d probeFile) with
  | some d => some d
  | none =>
    if tileFilenames.any (fun f => fs.fileExists "." f) then some "." else none

/-- Whether the first character list starts the second. -/
def leadsWith : List Char → List Char → Bool
  | [], _ => true
  | _ :: _, [] => false
  | a :: t1, b :: t2 => a == b && leadsWith t1 t2

/-- Whether the first character list occurs inside the second. -/
def containsSub : List Char → List Char → Bool
  | needle, [] => leadsWith needle []
  | needle, c :: t => leadsWith needle (c :: t) || containsSub needle t

/-- Whether the needle occurs as a substring of s. -/
def mentions (needle s : String) : Bool := containsSub needle.toList s.toList

/-- Concrete filesystem on which nothing exists and every load fails. -/
def fsEmpty : FS := ⟨fun _ => false, fun _ _ => false, fun _ _ => .error "io"⟩

/-- Concrete filesystem on which every directory and file exists and every
load succeeds, returning a bitmap tagged with the filename. -/
def fsFull : FS := ⟨fun _ => true, fun _ _ => true, fun _ f => .ok ⟨f⟩⟩

/-- Concrete filesystem for the C1 counterexample: only the directory
tiles exists, and it holds every catalog asset except the index-3 file
RGB (35, 46, 59).png, which is absent from every candidate directory. -/
def fsC1 : FS :=
  ⟨fun d => d == "tiles",
   fun d f => d == "tiles" && (f != "RGB (35, 46, 59).png"),
   fun _ f => .ok ⟨f⟩⟩

/-- Fully loaded tile cache value over fsFull. -/
def loadedTiles : TileMap := TILE_MAP.map (fun p => (p.1, ⟨p.2⟩))

/-- Concrete collaborators on which every stage succeeds. -/
def coreOk : Core :=
  ⟨1000, fun _ => .ok ⟨"img"⟩, fun _ _ _ _ => .ok ⟨"m2"⟩,
   fun _ => .ok [[0]], fun _ _ => .ok ⟨"m3"⟩⟩

/-- Concrete collaborators whose decoder rejects every payload. -/
def coreUndecodable : Core :=
  ⟨1000, fun _ => .error "not an image", fun _ _ _ _ => .ok ⟨"m2"⟩,
   fun _ => .ok [[0]], fun _ _ => .ok ⟨"m3"⟩⟩

/-- Server globals after a successful startup: both caches populated. -/
def stReady : ServerState := ⟨some loadedTiles, some (presetFromDict [])⟩

/-- C10: the preset-loaded check precedes size validation: whenever the
process-wide preset is not loaded, every request — whatever its size
value or file bytes — receives the 500 Preset not loaded error with no
event performed and no state change, never a 400 client-input error. -/
theorem preset_check_precedes_size_validation (core : Core) (fs : FS) (selfDir : String)
    (st : ServerState) (fileBytes : List Nat) (size : Int)
    (hp : st.globalPreset = none) :
    generate_lego_mosaic_3d core fs selfDir st fileBytes size =
      (.err 500 "Preset not loaded", st, []) := by
  unfold generate_lego_mosaic_3d
  rw [hp]

theorem preset_check_precedes_size_validation_witness :
    (⟨some loadedTiles, none⟩ : ServerState).globalPreset = none ∧
    generate_lego_mosaic_3d coreUndecodable fsEmpty "/app" ⟨some loadedTiles, none⟩ [0] 7 =
      (.err 500 "Preset not loaded", ⟨some loadedTiles, none⟩, []) :=
  ⟨rfl, preset_check_precedes_size_validation coreUndecodable fsEmpty "/app"
    ⟨some loadedTiles, none⟩ [0] 7 rfl⟩

/-- C4: with the preset loaded (the state every served request sees, since
startup populates it before traffic), a request whose size is outside
{64, 96} is rejected with the 400 size error and an empty event trace: the
upload is not read or decoded, and no external stage or tile resolution is
invoked. -/
theorem invalid_size_rejected_before_decode (core : Core) (fs : FS) (selfDir : String)
    (st : ServerState) (fileBytes : List Nat) (size : Int) (p : Preset)
    (hp : st.globalPreset = some p) (hs : ¬(size = 64 ∨ size = 96)) :
    generate_lego_mosaic_3d core fs selfDir st fileBytes size =
      (.err 400 "size must be 64 or 96", st, []) := by
  unfold generate_lego_mosaic_3d
  rw [hp]
  simp [hs]

theorem invalid_size_rejected_before_decode_witness :
    stReady.globalPreset = some (presetFromDict []) ∧ ¬((7 : Int) = 64 ∨ (7 : Int) = 96) ∧
    generate_lego_mosaic_3d coreOk fsEmpty "/app" stReady [0] 7 =
      (.err 400 "size must be 64 or 96", stReady, []) :=
  ⟨rfl, by decide,
   invalid_size_rejected_before_decode coreOk fsEmpty "/app" stReady [0] 7
     (presetFromDict []) rfl (by decide)⟩

/-- C9 counterexample: a request whose bytes are undecodable but whose
size is 7 (outside {64, 96}) is answered, in a fully initialized server
state, with the 400 size error, whose detail does not reference the
decode failure; so not every request with undecodable bytes yields a
response whose detail references the decode failure. -/
theorem undecodable_payload_counterexample :
    coreUndecodable.decodeImage [0] = .error "not an image" ∧
    generate_lego_mosaic_3d coreUndecodable fsEmpty "/app" stReady [0] 7 =
      (.err 400 "size must be 64 or 96", stReady, []) ∧
    mentions "Failed to read image" "size must be 64 or 96" = false := by
  refine ⟨rfl, ?_, by decide⟩
  unfold generate_lego_mosaic_3d
  simp [stReady]

/-- C9 amended: with the preset loaded and a size in {64, 96}, a request
whose bytes cannot be decoded is answered with a 400 error whose detail
references the decode failure cause, and the trace stops at the decode
attempt: the tile resolver and the three external stages are not
invoked. -/
theorem undecodable_payload_rejected (core : Core) (fs : FS) (selfDir : String)
    (st : ServerState) (fileBytes : List Nat) (size : Int) (p : Preset) (e : String)
    (hp : st.globalPreset = some p) (hs : size = 64 ∨ size = 96)
    (hd : core.decodeImage fileBytes = .error e) :
    generate_lego_mosaic_3d core fs selfDir st fileBytes size =
      (.err 400 ("Failed to read image: " ++ e), st, [.readFile, .decode]) := by
  unfold generate_lego_mosaic_3d
  rw [hp]
  simp [hs, hd]

theorem undecodable_payload_rejected_witness :
    stReady.globalPreset = some (presetFromDict []) ∧
    coreUndecodable.decodeImage [0] = .error "not an image" ∧
    generate_lego_mosaic_3d coreUndecodable fsEmpty "/app" stReady [0] 64 =
      (.err 400 "Failed to read image: not an image", stReady, [.readFile, .decode]) :=
  ⟨rfl, rfl,
   undecodable_payload_rejected coreUndecodable fsEmpty "/app" stReady [0] 64
     (presetFromDict []) "not an image" rfl (Or.inl rfl) rfl⟩

/-- C2: with the tile cache populated (the state every served request
sees, since startup eagerly populates both caches before traffic), the
handler leaves the process-wide globals exactly as it found them, on
every success and on every error path. -/
theorem handler_preserves_shared_state (core : Core) (fs : FS) (selfDir : String)
    (st : ServerState) (fileBytes : List Nat) (size : Int) (m : TileMap)
    (h : st.tileCache = some m) :
    (generate_lego_mosaic_3d core fs selfDir st fileBytes size).2.1 = st := by
  rcases st with ⟨tc, gp⟩
  simp only at h
  subst h
  cases gp with
  | none => rfl
  | some p =>
    simp only [generate_lego_mosaic_3d, load_tile_images]
    split
    · split
      · rfl
      · split
        · rfl
        · split
          · rfl
          · split
            · rfl
            · rfl
    · rfl

theorem handler_preserves_shared_state_witness :
    stReady.tileCache = some loadedTiles ∧
    (generate_lego_mosaic_3d coreOk fsEmpty "/app" stReady [0] 64).2.1 = stReady :=
  ⟨rfl, handler_preserves_shared_state coreOk fsEmpty "/app" stReady [0] 64 loadedTiles rfl⟩

/-- C3: for a request with size in {64, 96}, every adjust/quantize
invocation in the trace receives exactly the selected budget, which is
2900 for size 96 and the MAX_PER_COLOR constant for size 64; and when the
preset is loaded and the bytes decode, the adjust/quantize stage is
indeed invoked with that budget. -/
theorem budget_selection (core : Core) (fs : FS) (selfDir : String)
    (st : ServerState) (fileBytes : List Nat) (size : Int)
    (hs : size = 64 ∨ size = 96) :
    (∀ s mpc, Ev.stageAdjust s mpc ∈ (generate_lego_mosaic_3d core fs selfDir st fileBytes size).2.2 →
       mpc = selectBudget core size) ∧
    (size = 96 → selectBudget core size = 2900) ∧
    (size = 64 → selectBudget core size = core.MAX_PER_COLOR) ∧
    (∀ p img, st.globalPreset = some p → core.decodeImage fileBytes = .ok img →
       Ev.stageAdjust size (selectBudget core size) ∈
         (generate_lego_mosaic_3d core fs selfDir st fileBytes size).2.2) := by
  refine ⟨?_, ?_, ?_, ?_⟩
  · intro s mpc hmem
    simp only [generate_lego_mosaic_3d] at hmem
    repeat' split at hmem
    all_goals simp_all
  · intro h96
    simp [selectBudget, h96]
  · intro h64
    subst h64
    simp [selectBudget]
  · intro p img hp hd
    simp only [generate_lego_mosaic_3d, hp, hd, if_pos hs]
    split
    · simp
    · split
      · simp
      · split
        · simp
        · split
          · simp
          · simp

theorem budget_selection_witness :
    ((64 : Int) = 64 ∨ (64 : Int) = 96) ∧
    (∀ s mpc, Ev.stageAdjust s mpc ∈ (generate_lego_mosaic_3d coreOk fsEmpty "/app" stReady [0] 64).2.2 →
       mpc = selectBudget coreOk 64) ∧
    ((64 : Int) = 96 → selectBudget coreOk 64 = 2900) ∧
    ((64 : Int) = 64 → selectBudget coreOk 64 = coreOk.MAX_PER_COLOR) ∧
    (∀ p img, stReady.globalPreset = some p → coreOk.decodeImage [0] = .ok img →
       Ev.stageAdjust 64 (selectBudget coreOk 64) ∈
         (generate_lego_mosaic_3d coreOk fsEmpty "/app" stReady [0] 64).2.2) :=
  ⟨Or.inl rfl, budget_selection coreOk fsEmpty "/app" stReady [0] 64 (Or.inl rfl)⟩

/-- C7: once a first uncached call has successfully populated the cache
with mapping m, the published cache is exactly m, and any later call —
whatever filesystem, caller directory or service location it sees —
returns the same mapping m, republishes it unchanged, and performs zero
disk operations. -/
theorem tile_cache_memoized (fs fs2 : FS) (selfDir selfDir2 tilesDir tilesDir2 : String)
    (m : TileMap) (c : Option TileMap) (ops : List DiskOp)
    (h : load_tile_images fs selfDir none tilesDir = (.ok m, c, ops)) :
    c = some m ∧
    load_tile_images fs2 selfDir2 (some m) tilesDir2 = (.ok m, some m, []) := by
  refine ⟨?_, rfl⟩
  simp only [load_tile_images] at h
  split at h
  · simp at h
  · split at h
    · simp at h
    · injection h with h1 h23
      injection h23 with h2 h3
      injection h1 with h1
      subst h1
      exact h2.symm

theorem tile_cache_memoized_witness :
    load_tile_images fsFull "/app" none "tiles" =
      (.ok loadedTiles, some loadedTiles, (load_tile_images fsFull "/app" none "tiles").2.2) ∧
    (some loadedTiles = some loadedTiles ∧
     load_tile_images fsEmpty "/elsewhere" (some loadedTiles) "other" =
       (.ok loadedTiles, some loadedTiles, [])) :=
  ⟨rfl,
   tile_cache_memoized fsFull fsEmpty "/app" "/elsewhere" "tiles" "other" loadedTiles
     (some loadedTiles) (load_tile_images fsFull "/app" none "tiles").2.2 rfl⟩

/-- C8: a field absent from the parsed preset mapping takes its documented
default (blur 0, unsharp_radius 0, unsharp_percent 0, contrast 1,
brightness 1, gamma 1), a present field is coerced with its declared
conversion (float for the five real fields, int for unsharp_percent), and
the mapping holding only gamma 2 yields gamma 2 with the five other
fields at default. -/
theorem preset_defaults (d : PresetDict) :
    (List.lookup "blur" d = none → (presetFromDict d).blur = 0) ∧
    (List.lookup "unsharp_radius" d = none → (presetFromDict d).unsharp_radius = 0) ∧
    (List.lookup "unsharp_percent" d = none → (presetFromDict d).unsharp_percent = 0) ∧
    (List.lookup "contrast" d = none → (presetFromDict d).contrast = 1) ∧
    (List.lookup "brightness" d = none → (presetFromDict d).brightness = 1) ∧
    (List.lookup "gamma" d = none → (presetFromDict d).gamma = 1) ∧
    (∀ v, List.lookup "blur" d = some v → (presetFromDict d).blur = pyFloat v) ∧
    (∀ v, List.lookup "unsharp_radius" d = some v → (presetFromDict d).unsharp_radius = pyFloat v) ∧
    (∀ v, List.lookup "unsharp_percent" d = some v → (presetFromDict d).unsharp_percent = pyInt v) ∧
    (∀ v, List.lookup "contrast" d = some v → (presetFromDict d).contrast = pyFloat v) ∧
    (∀ v, List.lookup "brightness" d = some v → (presetFromDict d).brightness = pyFloat v) ∧
    (∀ v, List.lookup "gamma" d = some v → (presetFromDict d).gamma = pyFloat v) ∧
    presetFromDict [("gamma", 2)] = ⟨0, 0, 0, 1, 1, 2⟩ := by
  refine ⟨fun h => ?_, fun h => ?_, fun h => ?_, fun h => ?_, fun h => ?_, fun h => ?_,
         fun v h => ?_, fun v h => ?_, fun v h => ?_, fun v h => ?_, fun v h => ?_,
         fun v h => ?_, by decide⟩
  all_goals simp only [presetFromDict, pyFloat, h, Option.getD]
  all_goals decide

theorem preset_defaults_witness :
    List.lookup "blur" ([("gamma", 2)] : PresetDict) = none ∧
    List.lookup "gamma" ([("gamma", 2)] : PresetDict) = some 2 ∧
    (presetFromDict [("gamma", 2)]).blur = 0 ∧
    (presetFromDict [("gamma", 2)]).gamma = pyFloat 2 :=
  ⟨by decide, by decide,
   (preset_defaults [("gamma", 2)]).1 (by decide),
   (preset_defaults [("gamma", 2)]).2.2.2.2.2.2.2.2.2.2.2.1 2 (by decide)⟩

theorem findFirstDirT_fst_find (fs : FS) (hwf : fs.Wellformed) :
    ∀ l : List String,
      (findFirstDirT fs l).1 = l.find? (fun d => fs.fileExists d probeFile) := by
  intro l
  induction l with
  | nil => rfl
  | cons d rest ih =>
    cases hd : fs.dirExists d with
    | true =>
      cases hf : fs.fileExists d probeFile with
      | true => simp [findFirstDirT, hd, hf, List.find?]
      | false => simp [findFirstDirT, hd, hf, List.find?, ih]
    | false =>
      have hf : fs.fileExists d probeFile = false := by
        cases hfe : fs.fileExists d probeFile with
        | true => exact absurd (hwf d probeFile hfe) (by simp [hd])
        | false => rfl
      simp [findFirstDirT, hd, hf, List.find?, ih]

theorem fallbackT_fst_any (fs : FS) :
    ∀ l : List String,
      (fallbackT fs l).1 = if l.any (fun f => fs.fileExists "." f) then some "." else none := by
  intro l
  induction l with
  | nil => rfl
  | cons f rest ih =>
    cases hf : fs.fileExists "." f with
    | true => simp [fallbackT, hf]
    | false => simp [fallbackT, hf, ih]

theorem findFirstDirT_fst_none (fs : FS) :
    ∀ l : List String,
      (∀ d ∈ l, ¬(fs.dirExists d = true ∧ fs.fileExists d probeFile = true)) →
      (findFirstDirT fs l).1 = none := by
  intro l
  induction l with
  | nil => intro _; rfl
  | cons d rest ih =>
    intro h
    have hd := h d (by simp)
    have hrest : (findFirstDirT fs rest).1 = none :=
      ih (fun x hx => h x (by simp [hx]))
    cases hde : fs.dirExists d with
    | false => simp [findFirstDirT, hde, hrest]
    | true =>
      cases hfe : fs.fileExists d probeFile with
      | false => simp [findFirstDirT, hde, hfe, hrest]
      | true => exact absurd ⟨hde, hfe⟩ hd

theorem fallbackT_fst_none (fs : FS) :
    ∀ l : List String, (∀ f ∈ l, fs.fileExists "." f = false) →
      (fallbackT fs l).1 = none := by
  intro l
  induction l with
  | nil => intro _; rfl
  | cons f rest ih =>
    intro h
    have hf := h f (by simp)
    have hrest := ih (fun x hx => h x (by simp [hx]))
    simp [fallbackT, hf, hrest]

/-- C5: on a first uncached call and over any wellformed filesystem, the
directory resolution of load_tile_images equals the resolution the
specification describes: the candidate directories are examined in the
priority order caller-supplied, tiles, /mnt/data, current directory,
directory adjacent to the service file; the first containing the index-0
probe file is selected for all entries, and if none contains it, each
catalog filename is checked against the current directory, which is
selected if any is found; and when even that resolution fails, the first
uncached call fails with the missing-assets error. -/
theorem resolution_follows_spec_order (fs : FS) (selfDir tilesDir : String)
    (hwf : fs.Wellformed) :
    resolve_tiles_path fs selfDir tilesDir = claimResolve fs selfDir tilesDir ∧
    (claimResolve fs selfDir tilesDir = none →
      (load_tile_images fs selfDir none tilesDir).1 =
        .error (.missingAssets tileFilenames)) := by
  have h1 := findFirstDirT_fst_find fs hwf (search_paths tilesDir selfDir)
  have h2 := fallbackT_fst_any fs tileFilenames
  have hmain : resolve_tiles_path fs selfDir tilesDir = claimResolve fs selfDir tilesDir := by
    simp only [resolve_tiles_path, resolveT, claimResolve, h1, h2]
    have hcand : specCandidates tilesDir selfDir = search_paths tilesDir selfDir := rfl
    rw [hcand]
    cases List.find? (fun d => fs.fileExists d probeFile) (search_paths tilesDir selfDir) with
    | none => simp
    | some d => simp
  refine ⟨hmain, fun hnone => ?_⟩
  have hres : (resolveT fs selfDir tilesDir).1 = none := by
    rw [← hmain] at hnone
    exact hnone
  simp only [load_tile_images, hres]

theorem resolution_follows_spec_order_witness :
    FS.Wellformed fsFull ∧
    resolve_tiles_path fsFull "/app" "tiles" = claimResolve fsFull "/app" "tiles" ∧
    (claimResolve fsFull "/app" "tiles" = none →
      (load_tile_images fsFull "/app" none "tiles").1 =
        .error (.missingAssets tileFilenames)) :=
  ⟨fun _ _ _ => rfl, resolution_follows_spec_order fsFull "/app" "tiles" (fun _ _ _ => rfl)⟩

theorem loadAllT_error_names (fs : FS) (dir : String) :
    ∀ (l : List (Nat × String)) (e : TileError), (loadAllT fs dir l).1 = .error e →
      ∃ f, TileError.file? e = some f ∧ f ∈ l.map Prod.snd ∧
        (fs.fileExists dir f = false ∨ ∃ msg, fs.loadImage dir f = .error msg) := by
  intro l
  induction l with
  | nil =>
    intro e h
    simp [loadAllT] at h
  | cons hd rest ih =>
    rcases hd with ⟨idx, f⟩
    intro e h
    simp only [loadAllT] at h
    cases hfe : fs.fileExists dir f with
    | false =>
      rw [hfe] at h
      simp at h
      subst h
      exact ⟨f, rfl, by simp, Or.inl hfe⟩
    | true =>
      rw [hfe] at h
      simp only [if_true] at h
      cases hli : fs.loadImage dir f with
      | error msg =>
        rw [hli] at h
        simp at h
        subst h
        exact ⟨f, rfl, by simp, Or.inr ⟨msg, hli⟩⟩
      | ok img =>
        rw [hli] at h
        simp only at h
        rcases hrec : (loadAllT fs dir rest).1 with e2 | v
        · rw [hrec] at h
          simp [Except.map] at h
          subst h
          obtain ⟨f2, hf1, hf2, hf3⟩ := ih e2 hrec
          exact ⟨f2, hf1, by simp [hf2], hf3⟩
        · rw [hrec] at h
          simp [Except.map] at h

/-- C6: when the first uncached call has resolved a tile directory d but
fails while loading the catalog entries, the error names an offending
catalog file that is indeed missing from d or unloadable there, and the
process-wide cache is left unpopulated: no partial mapping is ever
published. -/
theorem load_failure_leaves_cache_unpopulated (fs : FS) (selfDir tilesDir d : String)
    (e : TileError)
    (hres : resolve_tiles_path fs selfDir tilesDir = some d)
    (herr : (load_tile_images fs selfDir none tilesDir).1 = .error e) :
    (load_tile_images fs selfDir none tilesDir).2.1 = none ∧
    ∃ f, TileError.file? e = some f ∧ f ∈ tileFilenames ∧
      (fs.fileExists d f = false ∨ ∃ msg, fs.loadImage d f = .error msg) := by
  have hres2 : (resolveT fs selfDir tilesDir).1 = some d := hres
  simp only [load_tile_images, hres2] at herr ⊢
  rcases hl : (loadAllT fs d TILE_MAP).1 with e2 | imgs
  · rw [hl] at herr
    simp at herr
    subst herr
    refine ⟨rfl, ?_⟩
    have := loadAllT_error_names fs d TILE_MAP e2 hl
    simpa [tileFilenames] using this
  · rw [hl] at herr
    simp at herr

theorem load_failure_leaves_cache_unpopulated_witness :
    resolve_tiles_path fsC1 "/app" "tiles" = some "tiles" ∧
    (load_tile_images fsC1 "/app" none "tiles").1 =
      .error (.tileNotFound "RGB (35, 46, 59).png" "tiles") ∧
    ((load_tile_images fsC1 "/app" none "tiles").2.1 = none ∧
     ∃ f, TileError.file? (.tileNotFound "RGB (35, 46, 59).png" "tiles") = some f ∧
       f ∈ tileFilenames ∧
       (fsC1.fileExists "tiles" f = false ∨
        ∃ msg, fsC1.loadImage "tiles" f = .error msg)) :=
  ⟨rfl, rfl,
   load_failure_leaves_cache_unpopulated fsC1 "/app" "tiles" "tiles"
     (.tileNotFound "RGB (35, 46, 59).png" "tiles") rfl rfl⟩

/-- C1 counterexample: on fsC1 the index-3 asset RGB (35, 46, 59).png is
absent from every candidate directory (and from the current-directory
fallback), yet cache population fails with the single-file tileNotFound
error — not the error enumerating all five expected filenames — because
the probe asset resolves the tiles directory first. So a missing asset
does not always produce the enumerating missing-assets error. -/
theorem missing_asset_error_counterexample :
    (∀ dd ∈ search_paths "tiles" "/app", fsC1.fileExists dd "RGB (35, 46, 59).png" = false) ∧
    (load_tile_images fsC1 "/app" none "tiles").1 =
      .error (.tileNotFound "RGB (35, 46, 59).png" "tiles") ∧
    isMissingAssetsError (load_tile_images fsC1 "/app" none "tiles").1 = false := by
  refine ⟨by decide, rfl, rfl⟩

/-- C1 amended: when the index-0 probe asset is found in no candidate
directory and no catalog filename is present in the current working
directory, cache population fails with the missing-assets error whose
file list enumerates exactly the five expected filenames. When instead a
directory is resolved and a non-probe asset is missing, the failure names
only the offending file (see the counterexample). -/
theorem missing_probe_enumerates_all_filenames (fs : FS) (selfDir tilesDir : String)
    (h1 : ∀ dd ∈ search_paths tilesDir selfDir,
      ¬(fs.dirExists dd = true ∧ fs.fileExists dd probeFile = true))
    (h2 : ∀ f ∈ tileFilenames, fs.fileExists "." f = false) :
    (load_tile_images fs selfDir none tilesDir).1 =
      .error (.missingAssets tileFilenames) ∧
    tileFilenames =
      ["RGB (220, 224, 225).png", "RGB (150, 160, 171).png", "RGB (88, 99, 110).png",
       "RGB (35, 46, 59).png", "RGB (20, 25, 30).png"] := by
  have ha := findFirstDirT_fst_none fs (search_paths tilesDir selfDir) h1
  have hb := fallbackT_fst_none fs tileFilenames h2
  have hres : (resolveT fs selfDir tilesDir).1 = none := by
    simp only [resolveT, ha, hb]
  refine ⟨?_, rfl⟩
  simp only [load_tile_images, hres]

theorem missing_probe_enumerates_all_filenames_witness :
    (∀ dd ∈ search_paths "tiles" "/app",
      ¬(fsEmpty.dirExists dd = true ∧ fsEmpty.fileExists dd probeFile = true)) ∧
    (∀ f ∈ tileFilenames, fsEmpty.fileExists "." f = false) ∧
    ((load_tile_images fsEmpty "/app" none "tiles").1 =
       .error (.missingAssets tileFilenames) ∧
     tileFilenames =
       ["RGB (220, 224, 225).png", "RGB (150, 160, 171).png", "RGB (88, 99, 110).png",
        "RGB (35, 46, 59).png", "RGB (20, 25, 30).png"]) :=
  ⟨by decide, by decide,
   missing_probe_enumerates_all_filenames fsEmpty "/app" "tiles" (by decide) (by decide)⟩

end LegoMosaicAPI
